import Mathlib

/-!
# Verification of `generate_app_icon.py` (FlightTracker icon generator)

Shallow embedding of the single-file Python script `src/generate_app_icon.py`.

Modelling conventions:
* An in-memory PIL image is an `Image`: a width, a height, and a pixel
  function.  `Image.new('RGBA', (w, h))` with no colour argument gives the
  all-zero (fully transparent) buffer, and `Image.new('RGBA', (w, h), (0,0,0,0))`
  likewise.
* Drawing calls (`draw.line`, `draw.polygon`, `draw.ellipse`, `draw.text`) are
  embedded as a list of `DrawCmd`s executed in program order by `render`;
  `ImageDraw` on an RGBA image writes the given RGBA fill verbatim (no alpha
  blending), so a later command overwrites an earlier one on the pixels it
  covers.
* Python `//` on nonnegative ints is `Int.fdiv`; Python `int()` on the
  nonnegative floats appearing here is the rational floor, which for the
  gradient channels is expressed with `Int.fdiv` (exact: every value involved
  is a ratio of small integers, and the IEEE-double computation of the script
  agrees with the exact rational one on all inputs considered here).
* Coordinates passed as Python floats (`width*0.1` …) are exact multiples of
  1/10, so ellipse boxes are stored as integer numerators in units of a tenth
  of a pixel.
* Rasterisation of a filled polygon is the even–odd (ray-crossing) rule and an
  ellipse is the filled region of its bounding box; glyph rasterisation of
  `draw.text` is abstracted by its layout box.  No claim depends on the exact
  covered set, only on "pixels no command covers keep the background".
* The filesystem is a map from path to file data; `os.path.exists` and
  `ImageFont.truetype` (which may raise) are an environment `Env`.
* `Image.resize(..., LANCZOS)` is abstracted by a deterministic total function
  producing an image of exactly the requested dimensions; the claims use only
  its dimensions and its determinism, which hold of the real resampler.
-/

/-- An RGBA colour, one byte per channel (values 0..255 in this program). -/
structure Color where
  r : Nat
  g : Nat
  b : Nat
  a : Nat
deriving DecidableEq, Repr

/-- The fully transparent zero pixel `(0, 0, 0, 0)`. -/
def Color.clear : Color := ⟨0, 0, 0, 0⟩

/-- A drawing command issued to `ImageDraw`.  The script only draws horizontal
lines, so `line` records the common row.  Ellipse coordinates are in tenths of
a pixel (the script passes exact multiples of 0.1).  `text` records the layout
position, the string, the computed text width and the font size (its layout
height); glyph coverage is abstracted by that box. -/
inductive DrawCmd where
  | hline (y x0 x1 : Int) (c : Color)
  | polygon (pts : List (Int × Int)) (c : Color)
  | ellipse (x0 y0 x1 y1 : Int) (c : Color)
  | text (x y : Int) (s : String) (w h : Int) (c : Color)
deriving DecidableEq, Repr

/-- The fill colour a command writes onto the pixels it covers. -/
def DrawCmd.color : DrawCmd → Color
  | .hline _ _ _ c => c
  | .polygon _ c => c
  | .ellipse _ _ _ _ c => c
  | .text _ _ _ _ _ c => c

/-- Does the edge from `a` to `b` cross the horizontal ray going right from
pixel `p`?  (Standard even–odd ray-crossing test, exact integer arithmetic:
`p.x < a.x + (p.y - a.y) * (b.x - a.x) / (b.y - a.y)` with the division
cleared, minding the sign of `b.y - a.y`.) -/
def edgeCross (p a b : Int × Int) : Bool :=
  if a.2 ≤ p.2 ∧ p.2 < b.2 then
    (p.1 - a.1) * (b.2 - a.2) < (p.2 - a.2) * (b.1 - a.1)
  else if b.2 ≤ p.2 ∧ p.2 < a.2 then
    (p.1 - a.1) * (b.2 - a.2) > (p.2 - a.2) * (b.1 - a.1)
  else false

/-- The cyclic edge list of a polygon. -/
def polyEdges : List (Int × Int) → List ((Int × Int) × (Int × Int))
  | [] => []
  | p :: ps => List.zip (p :: ps) (ps ++ [p])

/-- Even–odd membership test: a point is inside a polygon iff a rightward ray
crosses an odd number of edges. -/
def inPolygon (pts : List (Int × Int)) (p : Int × Int) : Bool :=
  ((polyEdges pts).filter (fun e => edgeCross p e.1 e.2)).length % 2 = 1

/-- Membership in the filled ellipse of bounding box `[x0, y0, x1, y1]` (in
tenths of a pixel): `((2·10·px − (x0+x1))·(y1−y0))² + ((2·10·py − (y0+y1))·(x1−x0))²
≤ ((x1−x0)·(y1−y0))²`, the usual inequality with denominators cleared. -/
def inEllipse (x0 y0 x1 y1 : Int) (p : Int × Int) : Bool :=
  ((20 * p.1 - (x0 + x1)) * (y1 - y0)) ^ 2
    + ((20 * p.2 - (y0 + y1)) * (x1 - x0)) ^ 2
    ≤ ((x1 - x0) * (y1 - y0)) ^ 2

/-- Which pixels a drawing command covers. -/
def DrawCmd.covers : DrawCmd → Int → Int → Bool
  | .hline y x0 x1 _, px, py => py = y && x0 ≤ px && px ≤ x1
  | .polygon pts _, px, py => inPolygon pts (px, py)
  | .ellipse x0 y0 x1 y1 _, px, py => inEllipse x0 y0 x1 y1 (px, py)
  | .text x y _ w h _, px, py => x ≤ px && px < x + w && y ≤ py && py < y + h

/-- An in-memory raster image: dimensions plus a pixel function (queried only
inside the canvas; outside it the value is `Color.clear`). -/
structure Image where
  width : Nat
  height : Nat
  pix : Nat → Nat → Color

/-- Execute a command list (in program order) over a background colour at one
pixel: the last command covering the pixel wins, else the background remains. -/
def paint (bg : Color) (cmds : List DrawCmd) (x y : Nat) : Color :=
  cmds.foldl (fun c cmd => if cmd.covers (x : Int) (y : Int) then cmd.color else c) bg

/-- Build the image a sequence of draw calls leaves on a fresh canvas of
background colour `bg`. -/
def render (w h : Nat) (bg : Color) (cmds : List DrawCmd) : Image :=
  ⟨w, h, fun x y => if x < w ∧ y < h then paint bg cmds x y else Color.clear⟩

/-- One channel of the gradient: Python `int(base + (target - base) * (y / height))`.
All values are nonnegative, so `int` truncation is the floor, i.e.
`base + (target - base) * y fdiv height`. -/
def gradChannel (base target y height : Int) : Int :=
  base + Int.fdiv ((target - base) * y) height

/-- The fill colour of scanline `y` in `create_gradient` (lines 24–28 of the
script): interpolate (135, 206, 235) → (173, 216, 230) at ratio `y / height`,
alpha 255. -/
def gradColor (y height : Nat) : Color :=
  ⟨(gradChannel 135 173 y height).toNat,
   (gradChannel 206 216 y height).toNat,
   (gradChannel 235 230 y height).toNat, 255⟩

/-- The `draw.line([(0, y), (width, y)], fill=...)` calls of `create_gradient`,
one per `y in range(height)`, in order. -/
def gradientCmds (width height : Nat) : List DrawCmd :=
  (List.range height).map
    (fun (y : Nat) => DrawCmd.hline (y : Int) 0 (width : Int) (gradColor y height))

/-- `create_gradient(width, height)`: a fresh transparent RGBA canvas with each
scanline painted with its interpolated colour. -/
def create_gradient (width height : Nat) : Image :=
  render width height Color.clear (gradientCmds width height)

/-- `create_back_layer(width, height)` just returns `create_gradient`. -/
def create_back_layer (width height : Nat) : Image :=
  create_gradient width height

theorem create_gradient_width (w h : Nat) : (create_gradient w h).width = w := rfl

theorem create_gradient_height (w h : Nat) : (create_gradient w h).height = h := rfl

/-- `draw_airplane(draw, center_x, center_y, size, color)`: three filled
polygons (fuselage, wings, tail), in program order.  Python `//` is `Int.fdiv`. -/
def draw_airplane (center_x center_y size : Int) (color : Color) : List DrawCmd :=
  let body_points : List (Int × Int) :=
    [(center_x, center_y - size),
     (center_x + Int.fdiv size 6, center_y + Int.fdiv size 2),
     (center_x, center_y + Int.fdiv size 3),
     (center_x - Int.fdiv size 6, center_y + Int.fdiv size 2)]
  let wing_points : List (Int × Int) :=
    [(center_x - size, center_y - Int.fdiv size 4),
     (center_x - Int.fdiv size 3, center_y),
     (center_x + Int.fdiv size 3, center_y),
     (center_x + size, center_y - Int.fdiv size 4)]
  let tail_points : List (Int × Int) :=
    [(center_x - Int.fdiv size 3, center_y + Int.fdiv size 3),
     (center_x, center_y + Int.fdiv size 2),
     (center_x + Int.fdiv size 3, center_y + Int.fdiv size 3)]
  [DrawCmd.polygon body_points color,
   DrawCmd.polygon wing_points color,
   DrawCmd.polygon tail_points color]

/-- The static candidate font list of `create_front_layer` (lines 77–81). -/
def font_paths : List String :=
  ["/System/Library/Fonts/Helvetica.ttc",
   "/System/Library/Fonts/SFCompact.ttf",
   "/usr/share/fonts/truetype/dejavu/DejaVuSans-Bold.ttf"]

/-- A font object returned by `ImageFont.truetype(path, size)`. -/
structure Font where
  path : String
  size : Nat
deriving DecidableEq, Repr

/-- The ambient system the script runs against: which paths exist
(`os.path.exists`), what `ImageFont.truetype` does (it may raise, hence
`Except`), and the text width `draw.textbbox` reports for a font
(`bbox[2] - bbox[0]`). -/
structure Env where
  pathExists : String → Bool
  loadFont : String → Nat → Except String Font
  textWidth : Font → String → Int

/-- The font-search loop of `create_front_layer`: scan `font_paths`; at the
first existing path call `truetype` (whose exception propagates) and stop;
if no candidate exists the font stays `None`. -/
def findFontLoop (env : Env) (size : Nat) : List String → Except String (Option Font)
  | [] => Except.ok none
  | p :: ps =>
      if env.pathExists p then (env.loadFont p size).map some
      else findFontLoop env size ps

/-- The text block of `create_front_layer` (lines 75–99), producing the text
commands it draws: `[]` when the font is `None` (no message), the
shadow-then-main pair when a font was loaded, and the caught exception
otherwise.  The font size is `int(height * 0.12)` = `12 * height / 100`. -/
def frontTextResult (env : Env) (width height : Nat) : Except String (List DrawCmd) :=
  match findFontLoop env (12 * height / 100) font_paths with
  | Except.error e => Except.error e
  | Except.ok none => Except.ok []
  | Except.ok (some font) =>
      let text := "FLIGHT TRACKER"
      let text_width := env.textWidth font text
      let text_x := Int.fdiv ((width : Int) - text_width) 2
      let text_y : Int := (height : Int) - ((2 * height / 10 : Nat) : Int)
      Except.ok
        [DrawCmd.text (text_x + 1) (text_y + 1) text text_width (font.size : Int) ⟨0, 0, 0, 150⟩,
         DrawCmd.text text_x text_y text text_width (font.size : Int) ⟨255, 255, 255, 255⟩]

/-- The draw commands of `create_front_layer` apart from the text: the airplane
drawn with a +2-pixel shadow offset in `(0,0,0,100)`, then in opaque white. -/
def airplaneBaseCmds (width height : Nat) : List DrawCmd :=
  let center_x : Int := Int.fdiv width 2
  let center_y : Int := Int.fdiv height 2 - 20
  let airplane_size : Int := Int.fdiv (min width height) 4
  draw_airplane (center_x + 2) (center_y + 2) airplane_size ⟨0, 0, 0, 100⟩
    ++ draw_airplane center_x center_y airplane_size ⟨255, 255, 255, 255⟩

/-- The full command list of `create_front_layer` (text possibly absent). -/
def frontCmds (env : Env) (width height : Nat) : List DrawCmd :=
  airplaneBaseCmds width height
    ++ (match frontTextResult env width height with
        | Except.ok tcs => tcs
        | Except.error _ => [])

/-- `create_front_layer(width, height)`: the rendered image on a fresh
transparent canvas, together with the messages it prints (only the caught
font-exception warning, if any). -/
def create_front_layer (env : Env) (width height : Nat) : Image × List String :=
  (render width height Color.clear (frontCmds env width height),
   match frontTextResult env width height with
   | Except.ok _ => []
   | Except.error e => ["⚠️  Could not add text: " ++ e])

/-- The two `draw.ellipse` calls of `create_middle_layer` (lines 116 and 119);
box coordinates in tenths of a pixel (`width*0.1` = `width` tenths, …), fill
`(255, 255, 255, 80)` for both. -/
def middleCmds (width height : Nat) : List DrawCmd :=
  let cloud_color : Color := ⟨255, 255, 255, 80⟩
  [DrawCmd.ellipse (1 * width) (3 * height) (3 * width) (5 * height) cloud_color,
   DrawCmd.ellipse (7 * width) (4 * height) (9 * width) (6 * height) cloud_color]

/-- `create_middle_layer(width, height)`: two cloud ellipses on a fresh
transparent canvas. -/
def create_middle_layer (width height : Nat) : Image :=
  render width height Color.clear (middleCmds width height)

/-- One `{filename, idiom, scale}` entry of a `Contents.json`. -/
structure ImageEntry where
  filename : String
  idiom : String
  scale : String
deriving DecidableEq, Repr

/-- The `info` object of a `Contents.json`. -/
structure ContentsInfo where
  author : String
  version : Nat
deriving DecidableEq, Repr

/-- The whole `Contents.json` document (lines 136–153). -/
structure Contents where
  images : List ImageEntry
  info : ContentsInfo
deriving DecidableEq, Repr

/-- The descriptor `save_imageset` writes for an image named `name`. -/
def contentsFor (name : String) : Contents :=
  { images :=
      [{ filename := name ++ ".png", idiom := "tv", scale := "1x" },
       { filename := name ++ "@2x.png", idiom := "tv", scale := "2x" }],
    info := { author := "xcode", version := 1 } }

/-- `img.resize((w2, h2), Image.LANCZOS)`, abstracted: a deterministic image of
exactly the requested dimensions (the claims rely only on its dimensions and
on its being a function of `img`, both true of the real Lanczos resampler). -/
def Image.resize (img : Image) (w2 h2 : Nat) : Image :=
  ⟨w2, h2, fun x y =>
    if x < w2 ∧ y < h2 then img.pix (x * img.width / w2) (y * img.height / h2)
    else Color.clear⟩

/-- What lands at a filesystem path: a directory (`os.makedirs`), a PNG
(`img.save`) or the JSON descriptor (`json.dump`). -/
inductive FileData where
  | dir
  | png (img : Image)
  | json (c : Contents)

/-- The dimensions of a PNG file, `none` for other entries. -/
def FileData.pngDims : FileData → Option (Nat × Nat)
  | .png img => some (img.width, img.height)
  | _ => none

/-- Whether the entry is a JSON descriptor. -/
def FileData.isJson : FileData → Bool
  | .json _ => true
  | _ => false

/-- `save_imageset(img, base_path, name)`: the filesystem writes it performs in
order (folder, 1x PNG, 2x PNG at doubled size, `Contents.json`) and its printed
message. -/
def save_imageset (img : Image) (base_path name : String) :
    List (String × FileData) × List String :=
  let imageset_path := base_path ++ "/" ++ name ++ ".imageset"
  ([(imageset_path, FileData.dir),
    (imageset_path ++ "/" ++ name ++ ".png", FileData.png img),
    (imageset_path ++ "/" ++ name ++ "@2x.png",
       FileData.png (img.resize (img.width * 2) (img.height * 2))),
    (imageset_path ++ "/Contents.json", FileData.json (contentsFor name))],
   ["✅ Created " ++ name ++ " @ 1x and 2x"])

/-- A filesystem state: what data each path currently holds. -/
abbrev FS := String → Option FileData

/-- Apply a list of writes in order; each write replaces whatever its path
held. -/
def applyWrites (fs : FS) (ws : List (String × FileData)) : FS :=
  ws.foldl (fun fs w => fun p => if p = w.1 then some w.2 else fs p) fs

/-- Run `save_imageset` against a filesystem state. -/
def runSaveImageset (fs : FS) (img : Image) (base_path name : String) : FS :=
  applyWrites fs (save_imageset img base_path name).1

/-- The filesystem writes `main` performs, in order: the output directory and
the six preview PNGs (three at 400×240, three at 1280×768).  `main` never
calls `save_imageset`. -/
def mainWrites (env : Env) : List (String × FileData) :=
  [("AppIconAssets", FileData.dir),
   ("AppIconAssets/Front-preview.png", FileData.png (create_front_layer env 400 240).1),
   ("AppIconAssets/Back-preview.png", FileData.png (create_back_layer 400 240)),
   ("AppIconAssets/Middle-preview.png", FileData.png (create_middle_layer 400 240)),
   ("AppIconAssets/Front-AppStore-preview.png", FileData.png (create_front_layer env 1280 768).1),
   ("AppIconAssets/Back-AppStore-preview.png", FileData.png (create_back_layer 1280 768)),
   ("AppIconAssets/Middle-AppStore-preview.png", FileData.png (create_middle_layer 1280 768))]

/-- The closing block of prints of `main` (lines 194–206). -/
def mainFinalPrints : List String :=
  ["\n✨ Done! Generated icon layers in \x27AppIconAssets/\x27 folder",
   "\n📋 Next steps:",
   "1. Open Xcode and navigate to:",
   "   FlightTracker/Assets.xcassets/App Icon & Top Shelf Image.brandassets/",
   "\n2. For \x27App Icon.imagestack\x27:",
   "   - Front.imagestacklayer/Content.imageset: Drag Front-preview.png to 1x slot",
   "   - Back.imagestacklayer/Content.imageset: Drag Back-preview.png to 1x slot",
   "   - Middle.imagestacklayer/Content.imageset: Drag Middle-preview.png to 1x slot",
   "\n3. For \x27App Icon - App Store.imagestack\x27:",
   "   - Do the same with Front/Back/Middle-AppStore-preview.png files",
   "\n4. Clean build (⇧⌘K) and rebuild",
   "5. Delete app from Apple TV and reinstall",
   "\n🎉 Your icon should now appear!"]

/-- Everything `main` prints, in order (the font warning of each
`create_front_layer` call appears where that call runs). -/
def mainPrints (env : Env) : List String :=
  ["🎨 Generating App Icons for Eddie\x27s Flight Tracker..."]
    ++ ["\n📐 Generating 400x240 icon layers..."]
    ++ (create_front_layer env 400 240).2
    ++ ["✅ Preview images saved to AppIconAssets/"]
    ++ ["\n📐 Generating 1280x768 App Store icon layers..."]
    ++ (create_front_layer env 1280 768).2
    ++ mainFinalPrints

/-- The error message of the import guard (line 10). -/
def importErrorMsg : String := "❌ PIL/Pillow not installed. Run: pip3 install pillow"

/-- The whole script: if the drawing library is missing the guard prints the
error and exits 1 having done nothing else; otherwise `main` runs and the
process exits 0.  Result: (exit status, prints, filesystem writes). -/
def program (pilAvailable : Bool) (env : Env) :
    Nat × List String × List (String × FileData) :=
  if pilAvailable then (0, mainPrints env, mainWrites env)
  else (1, [importErrorMsg], [])

/-- An environment on which no candidate font path exists. -/
def envNone : Env :=
  { pathExists := fun _ => false,
    loadFont := fun p s => Except.ok ⟨p, s⟩,
    textWidth := fun _ _ => 0 }

/-- Is the command a text command? -/
def DrawCmd.isText : DrawCmd → Bool
  | .text _ _ _ _ _ _ => true
  | _ => false

/-- Is the command an ellipse? -/
def DrawCmd.isEllipse : DrawCmd → Bool
  | .ellipse _ _ _ _ _ => true
  | _ => false

/-- Is the command a (horizontal) line? -/
def DrawCmd.isHline : DrawCmd → Bool
  | .hline _ _ _ _ => true
  | _ => false

section RenderLemmas

lemma paint_append (bg : Color) (l1 l2 : List DrawCmd) (x y : Nat) :
    paint bg (l1 ++ l2) x y = paint (paint bg l1 x y) l2 x y := by
  simp [paint, List.foldl_append]

lemma paint_not_covered (bg : Color) (cmds : List DrawCmd) (x y : Nat)
    (h : ∀ c ∈ cmds, c.covers (x : Int) (y : Int) = false) :
    paint bg cmds x y = bg := by
  induction cmds with
  | nil => rfl
  | cons c cs ih =>
      have hc := h c (by simp)
      simp only [paint, List.foldl_cons, hc, Bool.false_eq_true, if_false]
      exact ih fun d hd => h d (by simp [hd])

lemma paint_gradient (w H bgr bgg bgb bga : Nat) (x y : Nat) (hx : x ≤ w) (n : Nat) :
    paint ⟨bgr, bgg, bgb, bga⟩
      ((List.range n).map
        (fun (k : Nat) => DrawCmd.hline (k : Int) 0 (w : Int) (gradColor k H))) x y
      = if y < n then gradColor y H else ⟨bgr, bgg, bgb, bga⟩ := by
  induction n with
  | zero => simp [paint]
  | succ n ih =>
      rw [List.range_succ, List.map_append, paint_append, ih]
      by_cases hyn : y = n
      · subst hyn
        have hcov : (DrawCmd.hline (y : Int) 0 (w : Int) (gradColor y H)).covers
            (x : Int) (y : Int) = true := by
          simp [DrawCmd.covers]
          omega
        simp [paint, hcov, DrawCmd.color, Nat.lt_succ_self]
      · have hncov : (DrawCmd.hline (n : Int) 0 (w : Int) (gradColor n H)).covers
            (x : Int) (y : Int) = false := by
          simp [DrawCmd.covers]
          intro h
          omega
        have : (y < n + 1) = (y < n) := by
          apply propext
          omega
        simp [paint, hncov, this]

/-- The pixel the gradient leaves at any in-canvas coordinate. -/
lemma create_gradient_pix (w h x y : Nat) (hx : x < w) (hy : y < h) :
    (create_gradient w h).pix x y = gradColor y h := by
  have hx' : x ≤ w := Nat.le_of_lt hx
  simp only [create_gradient, render, gradientCmds, hx, hy, and_self, if_true]
  rw [show Color.clear = ⟨0, 0, 0, 0⟩ from rfl, paint_gradient w h 0 0 0 0 x y hx']
  simp [hy]

end RenderLemmas

section FontLemmas

lemma findFontLoop_none (env : Env) (s : Nat) (ps : List String)
    (h : ∀ p ∈ ps, env.pathExists p = false) :
    findFontLoop env s ps = Except.ok none := by
  induction ps with
  | nil => rfl
  | cons p ps ih =>
      have hp := h p (by simp)
      simp only [findFontLoop, hp, Bool.false_eq_true, if_false]
      exact ih fun q hq => h q (by simp [hq])

lemma frontTextResult_no_font (env : Env) (w h : Nat)
    (hf : ∀ p ∈ font_paths, env.pathExists p = false) :
    frontTextResult env w h = Except.ok [] := by
  unfold frontTextResult
  rw [findFontLoop_none env _ font_paths hf]

lemma airplaneBaseCmds_no_text (w h : Nat) :
    ∀ c ∈ airplaneBaseCmds w h, c.isText = false := by
  intro c hc
  simp only [airplaneBaseCmds, draw_airplane, List.mem_append, List.mem_cons,
    List.not_mem_nil, or_false] at hc
  rcases hc with (rfl | rfl | rfl) | (rfl | rfl | rfl) <;> rfl

/-- When no candidate font path exists: no message, no text command, and the
driver still finishes with exit status 0. -/
lemma front_silent_no_text (env : Env) (w h : Nat)
    (hf : ∀ p ∈ font_paths, env.pathExists p = false) :
    (create_front_layer env w h).2 = [] ∧
    (∀ c ∈ frontCmds env w h, c.isText = false) ∧
    (program true env).1 = 0 := by
  have ht := frontTextResult_no_font env w h hf
  refine ⟨?_, ?_, rfl⟩
  · simp [create_front_layer, ht]
  · intro c hc
    simp only [frontCmds, ht, List.append_nil] at hc
    exact airplaneBaseCmds_no_text w h c hc

/-- When `truetype` (or anything else in the text block) raises: the warning is
printed, the text is omitted, and the driver still exits 0. -/
lemma front_error_case (env : Env) (w h : Nat) (e : String)
    (he : frontTextResult env w h = Except.error e) :
    (create_front_layer env w h).2 = ["⚠️  Could not add text: " ++ e] ∧
    (∀ c ∈ frontCmds env w h, c.isText = false) ∧
    (program true env).1 = 0 := by
  refine ⟨?_, ?_, rfl⟩
  · simp [create_front_layer, he]
  · intro c hc
    simp only [frontCmds, he, List.append_nil] at hc
    exact airplaneBaseCmds_no_text w h c hc

end FontLemmas

section FilesystemLemmas

lemma applyWrites_apply (fs : FS) (ws : List (String × FileData)) (p : String) :
    applyWrites fs ws p =
      match ws.reverse.find? (fun w => decide (w.1 = p)) with
      | some w => some w.2
      | none => fs p := by
  induction ws generalizing fs with
  | nil => rfl
  | cons w ws ih =>
      show applyWrites (fun q => if q = w.1 then some w.2 else fs q) ws p = _
      rw [ih, List.reverse_cons, List.find?_append]
      cases h : ws.reverse.find? (fun v => decide (v.1 = p)) with
      | some v => simp
      | none =>
          simp only [Option.none_or, List.find?_cons, List.find?_nil]
          by_cases hp : w.1 = p
          · subst hp
            simp
          · have hp' : ¬p = w.1 := fun hc => hp hc.symm
            simp [hp, hp']

lemma applyWrites_idem (fs : FS) (ws : List (String × FileData)) :
    applyWrites (applyWrites fs ws) ws = applyWrites fs ws := by
  funext p
  rw [applyWrites_apply, applyWrites_apply]
  cases h : ws.reverse.find? (fun w => decide (w.1 = p)) with
  | some w => rfl
  | none => rfl

end FilesystemLemmas

/-! ## Claim theorems -/

/-- C2 (counterexample): at the concrete canvas height 240 used by `main`, the
bottom scanline of `create_gradient` is not the bottom endpoint
`(173, 216, 230)` — the loop interpolates at ratio `y / height`, so row
`height - 1` gets ratio `239/240`, giving `(172, 215, 230)`. -/
theorem C2_counterexample :
    (create_gradient 400 240).pix 0 239 ≠ ⟨173, 216, 230, 255⟩ := by
  rw [create_gradient_pix 400 240 0 239 (by norm_num) (by norm_num)]
  decide

/-- C2 (amended): for every positive width and height, row 0 of
`create_gradient` is exactly the top endpoint `(135, 206, 235)`, and row
`height - 1` is the truncated interpolation at ratio `(height-1)/height`
(`gradColor (height-1) height`), whose red channel never reaches the bottom
endpoint value 173. -/
theorem C2_theorem (w h x : Nat) (hx : x < w) (hh : 0 < h) :
    (create_gradient w h).pix x 0 = ⟨135, 206, 235, 255⟩ ∧
    (create_gradient w h).pix x (h - 1) = gradColor (h - 1) h ∧
    ((create_gradient w h).pix x (h - 1)).r ≤ 172 := by
  have h0 : (create_gradient w h).pix x 0 = gradColor 0 h :=
    create_gradient_pix w h x 0 hx hh
  have h1 : (create_gradient w h).pix x (h - 1) = gradColor (h - 1) h :=
    create_gradient_pix w h x (h - 1) hx (by omega)
  refine ⟨?_, h1, ?_⟩
  · rw [h0]
    simp [gradColor, gradChannel]
  · rw [h1]
    show (gradChannel 135 173 ((h - 1 : Nat) : Int) (h : Int)).toNat ≤ 172
    unfold gradChannel
    have hh' : (0 : Int) < (h : Int) := by exact_mod_cast hh
    rw [Int.fdiv_eq_ediv _ (le_of_lt hh')]
    have hnn : (0 : Int) ≤ ((173 - 135) * ((h - 1 : Nat) : Int)) / (h : Int) :=
      Int.ediv_nonneg (by positivity) (le_of_lt hh')
    have hlt : ((173 - 135) * ((h - 1 : Nat) : Int)) / (h : Int) < 38 := by
      rw [Int.ediv_lt_iff_lt_mul hh']
      push_cast
      omega
    omega

/-- C2 (witness): the amended statement instantiated at the 400×240 canvas,
column 7. -/
theorem C2_witness :
    (7 < 400 ∧ 0 < 240) ∧
    ((create_gradient 400 240).pix 7 0 = ⟨135, 206, 235, 255⟩ ∧
     (create_gradient 400 240).pix 7 239 = gradColor 239 240 ∧
     ((create_gradient 400 240).pix 7 239).r ≤ 172) :=
  ⟨⟨by norm_num, by norm_num⟩, C2_theorem 400 240 7 (by norm_num) (by norm_num)⟩

/-- C3: for every image and name, the only JSON descriptor `save_imageset`
writes is `contentsFor name`: exactly two image entries, scales "1x" and "2x",
idiom "tv", filenames `name.png` / `name@2x.png`, info `(xcode, 1)` — all
independent of the image. -/
theorem C3_theorem (img : Image) (base_path name : String) :
    ((save_imageset img base_path name).1.filterMap
        (fun w => match w.2 with | FileData.json c => some c | _ => none))
      = [contentsFor name] ∧
    (contentsFor name).images.length = 2 ∧
    (contentsFor name).images.map ImageEntry.scale = ["1x", "2x"] ∧
    (contentsFor name).images.map ImageEntry.idiom = ["tv", "tv"] ∧
    (contentsFor name).images.map ImageEntry.filename
      = [name ++ ".png", name ++ "@2x.png"] ∧
    (contentsFor name).info = { author := "xcode", version := 1 } :=
  ⟨rfl, rfl, rfl, rfl, rfl, rfl⟩

/-- C4: if none of the candidate font paths exists, `create_front_layer`
prints nothing (the loop leaves the font `None` and the `if font:` block is
skipped), draws no text command, and the whole program still exits 0. -/
theorem C4_theorem (env : Env) (w h : Nat)
    (hf : ∀ p ∈ font_paths, env.pathExists p = false) :
    (create_front_layer env w h).2 = [] ∧
    (∀ c ∈ frontCmds env w h, c.isText = false) ∧
    (program true env).1 = 0 :=
  front_silent_no_text env w h hf

/-- C4 (witness): instantiated at an environment with no font files and the
400×240 canvas. -/
theorem C4_witness :
    (∀ p ∈ font_paths, envNone.pathExists p = false) ∧
    ((create_front_layer envNone 400 240).2 = [] ∧
     (∀ c ∈ frontCmds envNone 400 240, c.isText = false) ∧
     (program true envNone).1 = 0) :=
  ⟨by decide, C4_theorem envNone 400 240 (by decide)⟩

/-- C5 (counterexample): the missing-font condition occurs (no candidate path
exists) and the text is omitted, yet no message at all is emitted — refuting
"this condition is caught and logged (a message is emitted) whenever it
occurs". -/
theorem C5_counterexample :
    (∀ p ∈ font_paths, envNone.pathExists p = false) ∧
    (∀ c ∈ frontCmds envNone 400 240, c.isText = false) ∧
    (create_front_layer envNone 400 240).2 = [] := by
  refine ⟨by decide, by decide, by decide⟩

/-- C5 (amended): every missing or unloadable font is handled non-fatally by
omitting the text; only the unloadable case (an exception while loading) is
caught and logged with the warning message, while the missing case (no
candidate path exists) is silent. -/
theorem C5_theorem (env1 env2 : Env) (w h : Nat) (e : String)
    (h1 : frontTextResult env1 w h = Except.error e)
    (h2 : ∀ p ∈ font_paths, env2.pathExists p = false) :
    ((create_front_layer env1 w h).2 = ["⚠️  Could not add text: " ++ e] ∧
     (∀ c ∈ frontCmds env1 w h, c.isText = false) ∧
     (program true env1).1 = 0) ∧
    ((create_front_layer env2 w h).2 = [] ∧
     (∀ c ∈ frontCmds env2 w h, c.isText = false) ∧
     (program true env2).1 = 0) :=
  ⟨front_error_case env1 w h e h1, front_silent_no_text env2 w h h2⟩

/-- An environment where the first candidate font path exists but loading it
raises. -/
def envBad : Env :=
  { pathExists := fun p => p = "/System/Library/Fonts/Helvetica.ttc",
    loadFont := fun _ _ => Except.error "invalid font file",
    textWidth := fun _ _ => 0 }

/-- C5 (witness): the amended statement instantiated at an environment whose
font load raises and one with no fonts, both on the 400×240 canvas. -/
theorem C5_witness :
    (frontTextResult envBad 400 240 = Except.error "invalid font file") ∧
    (∀ p ∈ font_paths, envNone.pathExists p = false) ∧
    (((create_front_layer envBad 400 240).2
        = ["⚠️  Could not add text: " ++ "invalid font file"] ∧
      (∀ c ∈ frontCmds envBad 400 240, c.isText = false) ∧
      (program true envBad).1 = 0) ∧
     ((create_front_layer envNone 400 240).2 = [] ∧
      (∀ c ∈ frontCmds envNone 400 240, c.isText = false) ∧
      (program true envNone).1 = 0)) :=
  ⟨rfl, by decide,
   C5_theorem envBad envNone 400 240 "invalid font file" rfl (by decide)⟩

/-- C6: every layer buffer has exactly the requested dimensions, and the PNGs
`save_imageset` writes are the original image and the 2× variant with exactly
double each dimension. -/
theorem C6_theorem (env : Env) (w h : Nat) (img : Image) (base_path name : String) :
    ((create_front_layer env w h).1.width = w ∧ (create_front_layer env w h).1.height = h) ∧
    ((create_back_layer w h).width = w ∧ (create_back_layer w h).height = h) ∧
    ((create_middle_layer w h).width = w ∧ (create_middle_layer w h).height = h) ∧
    ((save_imageset img base_path name).1.filterMap (fun w => w.2.pngDims))
      = [(img.width, img.height), (img.width * 2, img.height * 2)] :=
  ⟨⟨rfl, rfl⟩, ⟨rfl, rfl⟩, ⟨rfl, rfl⟩, rfl⟩

/-- C7: running `save_imageset` twice with identical image, base path and name
leaves the filesystem exactly as after the first run: every path holds the
same file contents (the writes are a deterministic function of the inputs and
each write replaces the path's contents). -/
theorem C7_theorem (fs : FS) (img : Image) (base_path name : String) :
    runSaveImageset (runSaveImageset fs img base_path name) img base_path name
      = runSaveImageset fs img base_path name :=
  applyWrites_idem fs (save_imageset img base_path name).1

/-- C8: with the drawing library missing, the program prints exactly the
error line, performs no writes, and exits with the non-zero status 1; with it
available, it exits 0, its output starts with the progress banner, and it ends
with the manual next-steps instructions. -/
theorem C8_theorem (env : Env) :
    ((program false env).1 ≠ 0 ∧
     (program false env).2.1 = [importErrorMsg] ∧
     (program false env).2.2 = []) ∧
    ((program true env).1 = 0 ∧
     (program true env).2.1.head?
        = some "🎨 Generating App Icons for Eddie\x27s Flight Tracker..." ∧
     List.IsSuffix mainFinalPrints (program true env).2.1) := by
  refine ⟨⟨Nat.one_ne_zero, rfl, rfl⟩, rfl, ?_, ?_⟩
  · simp [program, mainPrints]
  · show List.IsSuffix mainFinalPrints (mainPrints env)
    exact List.suffix_append _ _

/-- C9: the middle layer is exactly two ellipse commands on a fresh canvas, at
the fixed proportional boxes `(0.1w, 0.3h, 0.3w, 0.5h)` and
`(0.7w, 0.4h, 0.9w, 0.6h)` (coordinates stored in tenths of a pixel), both
with the same semi-transparent white fill `(255, 255, 255, 80)`. -/
theorem C9_theorem (w h : Nat) :
    create_middle_layer w h = render w h Color.clear (middleCmds w h) ∧
    (middleCmds w h).length = 2 ∧
    middleCmds w h =
      [DrawCmd.ellipse (1 * w) (3 * h) (3 * w) (5 * h) ⟨255, 255, 255, 80⟩,
       DrawCmd.ellipse (7 * w) (4 * h) (9 * w) (6 * h) ⟨255, 255, 255, 80⟩] ∧
    (∀ c ∈ middleCmds w h, c.isEllipse = true ∧ c.color = ⟨255, 255, 255, 80⟩) := by
  refine ⟨rfl, rfl, rfl, ?_⟩
  intro c hc
  simp only [middleCmds, List.mem_cons, List.not_mem_nil, or_false] at hc
  rcases hc with rfl | rfl <;> exact ⟨rfl, rfl⟩

/-- C10: inside the canvas, every pixel of the back (gradient) layer is fully
opaque (alpha 255), while any pixel of the front or middle layer covered by no
draw command keeps the fully transparent background `(0, 0, 0, 0)`. -/
theorem C10_theorem (env : Env) (w h x y : Nat) (hx : x < w) (hy : y < h) :
    ((create_back_layer w h).pix x y).a = 255 ∧
    ((∀ c ∈ frontCmds env w h, c.covers (x : Int) (y : Int) = false) →
        (create_front_layer env w h).1.pix x y = Color.clear) ∧
    ((∀ c ∈ middleCmds w h, c.covers (x : Int) (y : Int) = false) →
        (create_middle_layer w h).pix x y = Color.clear) := by
  refine ⟨?_, ?_, ?_⟩
  · rw [show create_back_layer w h = create_gradient w h from rfl,
        create_gradient_pix w h x y hx hy]
    rfl
  · intro hcov
    show (render w h Color.clear (frontCmds env w h)).pix x y = Color.clear
    simp only [render, hx, hy, and_self, if_true]
    exact paint_not_covered _ _ _ _ hcov
  · intro hcov
    show (render w h Color.clear (middleCmds w h)).pix x y = Color.clear
    simp only [render, hx, hy, and_self, if_true]
    exact paint_not_covered _ _ _ _ hcov

/-- C10 (witness): at pixel (0,0) of the 400×240 canvas with no fonts: the
gradient is opaque there, and the front and middle layers (whose commands all
miss that pixel) are fully transparent there. -/
theorem C10_witness :
    (0 < 400 ∧ 0 < 240) ∧
    ((create_back_layer 400 240).pix 0 0).a = 255 ∧
    (create_front_layer envNone 400 240).1.pix 0 0 = Color.clear ∧
    (create_middle_layer 400 240).pix 0 0 = Color.clear := by
  have h := C10_theorem envNone 400 240 0 0 (by norm_num) (by norm_num)
  exact ⟨⟨by norm_num, by norm_num⟩, h.1, h.2.1 (by decide), h.2.2 (by decide)⟩

/-- C1 (counterexample): in a run with no fonts present, the writes `main`
performs contain no PNG of size 800×480 and no JSON descriptor at all —
`main` saves single preview PNGs (at 400×240 and 1280×768) and never calls
`save_imageset`, refuting "each layer is exported to disk at both 400×240 and
800×480 resolutions". -/
theorem C1_counterexample :
    (program true envNone).2.2 = mainWrites envNone ∧
    ((mainWrites envNone).map (fun w => w.2.pngDims)).all
      (fun d => d ≠ some (800, 480)) = true ∧
    (mainWrites envNone).all (fun w => w.2.isJson = false) = true :=
  ⟨rfl, by decide, by decide⟩

/-- C1 (amended): with no candidate font present, `main` produces the three
400×240 layers — a gradient-only background, a textless airplane front layer,
and a two-ellipse cloud layer — and writes each once as a preview PNG at
400×240, plus a second set at 1280×768; it performs no imageset (1x/2x + JSON)
export, and exits 0. -/
theorem C1_theorem (env : Env) (hf : ∀ p ∈ font_paths, env.pathExists p = false) :
    (program true env).2.2.map (fun w => (w.1, w.2.pngDims)) =
      [("AppIconAssets", none),
       ("AppIconAssets/Front-preview.png", some (400, 240)),
       ("AppIconAssets/Back-preview.png", some (400, 240)),
       ("AppIconAssets/Middle-preview.png", some (400, 240)),
       ("AppIconAssets/Front-AppStore-preview.png", some (1280, 768)),
       ("AppIconAssets/Back-AppStore-preview.png", some (1280, 768)),
       ("AppIconAssets/Middle-AppStore-preview.png", some (1280, 768))] ∧
    (∀ c ∈ frontCmds env 400 240, c.isText = false) ∧
    create_back_layer 400 240 = create_gradient 400 240 ∧
    (middleCmds 400 240).length = 2 ∧
    (∀ c ∈ middleCmds 400 240, c.isEllipse = true) ∧
    (program true env).1 = 0 :=
  ⟨rfl, (front_silent_no_text env 400 240 hf).2.1, rfl, rfl, by decide, rfl⟩

/-- C1 (witness): the amended statement instantiated at an environment with no
font files. -/
theorem C1_witness :
    (∀ p ∈ font_paths, envNone.pathExists p = false) ∧
    ((program true envNone).2.2.map (fun w => (w.1, w.2.pngDims)) =
      [("AppIconAssets", none),
       ("AppIconAssets/Front-preview.png", some (400, 240)),
       ("AppIconAssets/Back-preview.png", some (400, 240)),
       ("AppIconAssets/Middle-preview.png", some (400, 240)),
       ("AppIconAssets/Front-AppStore-preview.png", some (1280, 768)),
       ("AppIconAssets/Back-AppStore-preview.png", some (1280, 768)),
       ("AppIconAssets/Middle-AppStore-preview.png", some (1280, 768))] ∧
     (∀ c ∈ frontCmds envNone 400 240, c.isText = false) ∧
     create_back_layer 400 240 = create_gradient 400 240 ∧
     (middleCmds 400 240).length = 2 ∧
     (∀ c ∈ middleCmds 400 240, c.isEllipse = true) ∧
     (program true envNone).1 = 0) :=
  ⟨by decide, C1_theorem envNone (by decide)⟩
